import Mathlib

/-
Verification of the kthoom Book orchestrator (book.js) against its
natural-language specification.

The shallow embedding below translates book.js into Lean:
  * a JS ArrayBuffer is the list of its bytes (Buf);
  * Uint8Array allocation and TypedArray.set are modelled byte by byte;
  * the Book class is a structure of its private fields;
  * each loadFromXXX method is a function from the pre-state and its external
    inputs (response bytes, chunk list, pump events, the BookBinder produced
    by createBookBinderAsync) to a LoadResult carrying the post-state, the
    JS exception if one was thrown (exceptions thrown inside an async body
    surface as a rejection of the returned promise), and the ordered trace
    of the observable actions the method performed;
  * the BookBinder event listeners installed by startBookBinding are
    state-transformer functions;
  * BookPump continuation scheduling follows the JS microtask rule that
    then-callbacks registered on one promise run in registration (FIFO)
    order once it resolves.
-/

/-- Bytes are naturals; a JS ArrayBuffer is the list of its bytes. -/
abbrev Buf := List Nat

/-- Model of new Uint8Array(n) (and of new ArrayBuffer(n)): n zero bytes. -/
def uint8New (n : Nat) : Buf := List.replicate n 0

/-- Overwrite the front of buf with src, keeping the rest of buf: the
offset-0 case of TypedArray.set. -/
def bufOverwrite : Buf → Buf → Buf
  | buf, [] => buf
  | [], _ :: _ => []
  | _ :: bs, s :: ss => s :: bufOverwrite bs ss

/-- Model of TypedArray.set(src, off): write src into buf starting at
offset off. -/
def bufSet (buf : Buf) (src : Buf) (off : Nat) : Buf :=
  match off, buf with
  | 0, _ => bufOverwrite buf src
  | _ + 1, [] => []
  | n + 1, b :: bs => b :: bufSet bs src n

/-- Book.appendBytes buffer arithmetic (book.js lines 171-176): allocate a
fresh Uint8Array of size old.byteLength + chunk.byteLength, set the old
bytes at offset 0 and the chunk bytes at offset old.byteLength. -/
def appendBytes (old chunk : Buf) : Buf :=
  bufSet (bufSet (uint8New (old.length + chunk.length)) old 0) chunk old.length

/-- The defensive copy taken by startBookBinding (book.js lines 555-558):
new Uint8Array(new ArrayBuffer(ab.byteLength)) followed by set(ab). -/
def copyBuf (b : Buf) : Buf := bufSet (uint8New b.length) b 0

theorem bufSet_zero (buf src : Buf) : bufSet buf src 0 = bufOverwrite buf src := by
  cases buf <;> rfl

theorem bufOverwrite_replicate (src : Buf) (k : Nat) :
    bufOverwrite (List.replicate (src.length + k) 0) src = src ++ List.replicate k 0 := by
  induction src with
  | nil => simp [bufOverwrite]
  | cons s ss ih =>
    have hlen : (s :: ss).length + k = (ss.length + k) + 1 := by
      simp [List.length_cons]; omega
    rw [hlen, List.replicate_succ]
    simpa [bufOverwrite] using ih

theorem bufSet_append (a rest src : Buf) :
    bufSet (a ++ rest) src a.length = a ++ bufSet rest src 0 := by
  induction a with
  | nil => simp
  | cons x xs ih => simpa [bufSet] using ih

theorem appendBytes_eq_append (old chunk : Buf) : appendBytes old chunk = old ++ chunk := by
  unfold appendBytes uint8New
  rw [bufSet_zero, bufOverwrite_replicate old chunk.length, bufSet_append, bufSet_zero]
  have h := bufOverwrite_replicate chunk 0
  simp only [Nat.add_zero, List.replicate_zero, List.append_nil] at h
  rw [h]

theorem copyBuf_eq (b : Buf) : copyBuf b = b := by
  unfold copyBuf uint8New
  rw [bufSet_zero]
  have h := bufOverwrite_replicate b 0
  simpa using h

theorem appendBytes_length (old chunk : Buf) :
    (appendBytes old chunk).length = old.length + chunk.length := by
  rw [appendBytes_eq_append]; simp

/-- Buffer contents produced by the chunk loop of loadFromFetch (book.js
lines 389-396): the first chunk is defensively copied by startBookBinding,
each later chunk is folded in with appendBytes in arrival order. -/
def accumulateFetchChunks (first : Buf) (rest : List Buf) : Buf :=
  rest.foldl appendBytes (copyBuf first)

theorem foldl_appendBytes (init : Buf) (cs : List Buf) :
    cs.foldl appendBytes init = init ++ cs.flatten := by
  induction cs generalizing init with
  | nil => simp
  | cons c cs ih => simp [List.foldl, appendBytes_eq_append, ih]

theorem accumulateFetchChunks_eq (c0 : Buf) (cs : List Buf) :
    accumulateFetchChunks c0 cs = (c0 :: cs).flatten := by
  unfold accumulateFetchChunks
  rw [foldl_appendBytes, copyBuf_eq]
  simp

/-- The constructor argument uriRequestOrFileHandle of Book (book.js line
145): a string, a Request, a File, a FileSystemFileHandle (any other
truthy object), or undefined (the default for the optional parameter). -/
inductive CtorArg where
  | str (s : String)
  | request (id : Nat)
  | file (id : Nat)
  | fileHandle (id : Nat)
  | undef
  deriving DecidableEq

/-- JS truthiness of the constructor argument: the empty string and
undefined are falsy, objects and nonempty strings are truthy. -/
def CtorArg.truthy : CtorArg → Bool
  | .str s => s != ""
  | .undef => false
  | _ => true

/-- JS truthiness of the #uri field (undefined or a string). -/
def strTruthy : Option String → Bool
  | some s => s != ""
  | none => false

/-- The BookBinder surface the Book consumes (book-binder.js is external to
the orchestrator): the synchronous queries delegated to by the Book, and
the book type used to create the empty metadata. -/
structure BookBinder where
  bookType : Nat
  mimeType : String
  loadingPct : Int
  unarchivingPct : Int
  layoutPct : Int
  deriving DecidableEq

/-- The private fields of class Book (book.js lines 57-134). Pages are
abstract Binder-owned values, modelled as naturals; #bookMetadata holds a
reference (heap cell index, see MetaHeap below) to a BookMetadata record;
#arrayBuffer is null until startBookBinding runs. -/
structure Book where
  name : String
  uri : Option String
  request : Option Nat
  file : Option Nat
  fileHandle : CtorArg
  arrayBuffer : Option Buf
  bookBinder : Option BookBinder
  bookMetadata : Option Nat
  expectedSize : Int
  finishedBinding : Bool
  finishedLoading : Bool
  needsLoading : Bool
  pages : List Nat
  startedBinding : Bool
  totalPages : Nat
  deriving DecidableEq

/-- The errors the Book throws, under the names the spec error taxonomy
gives to the thrown strings: invalidState for the re-entrant-load guards,
sourceMismatch for a wrong or missing source kind, doubleBind for the
startBookBinding guard, notBound for getMIMEType without a binder, badName
for the constructor name guard, fetchNoChunk for a fetch body with no
first chunk. -/
inductive BookError where
  | invalidState
  | sourceMismatch
  | doubleBind
  | notBound
  | badName
  | fetchNoChunk
  deriving DecidableEq

/-- The typeof-string test of the constructor: #uri is set iff the
argument is a string. -/
def argUri : CtorArg → Option String
  | .str s => some s
  | _ => none

/-- The instanceof Request test of the constructor. -/
def argRequest : CtorArg → Option Nat
  | .request r => some r
  | _ => none

/-- The instanceof File test of the constructor. -/
def argFile : CtorArg → Option Nat
  | .file f => some f
  | _ => none

/-- The #fileHandle assignment of the constructor: the raw argument when
#uri, #request and #file are all JS-falsy, undefined otherwise. -/
def argHandle (a : CtorArg) : CtorArg :=
  if strTruthy (argUri a) || (argRequest a).isSome || (argFile a).isSome then .undef
  else a

/-- Book constructor (book.js lines 145-165): the name guard, then the
four source-field assignments; no error is thrown when no source kind is
populated (the source only carries a comment wondering whether it
should). -/
def mkBook (name : String) (arg : CtorArg) (expectedSize : Int) : Except BookError Book :=
  if name = "" then .error .badName
  else
    .ok { name := name, uri := argUri arg, request := argRequest arg,
          file := argFile arg, fileHandle := argHandle arg, arrayBuffer := none,
          bookBinder := none, bookMetadata := none, expectedSize := expectedSize,
          finishedBinding := false, finishedLoading := false,
          needsLoading := true, pages := [], startedBinding := false,
          totalPages := 0 }

/-- Number of JS-truthy source fields of a Book; the spec claims this is
exactly 1 for every constructed Book. -/
def sourceKindCount (b : Book) : Nat :=
  (if strTruthy b.uri then 1 else 0) + (if b.request.isSome then 1 else 0) +
    (if b.file.isSome then 1 else 0) + (if b.fileHandle.truthy then 1 else 0)

/-- Result of Book.getPage: an actual page, the JS undefined value (reading
pages at an index at or past pages.length), or the explicit null returned
for an index outside the bound. -/
inductive PageResult where
  | page (p : Nat)
  | absent
  | notFound
  deriving DecidableEq

/-- The bound used by Book.getPage (book.js line 238): the JS expression
this.totalPages with a fallback to pages.length when totalPages is 0. -/
def Book.numPages (b : Book) : Nat :=
  if b.totalPages ≠ 0 then b.totalPages else b.pages.length

/-- Book.getPage (book.js lines 234-243): null when i is negative or at
least numPages, otherwise the array read pages at index i, which is the
undefined value when extraction lags the reported total. -/
def Book.getPage (b : Book) (i : Int) : PageResult :=
  if i < 0 ∨ (b.numPages : Int) ≤ i then .notFound
  else
    match b.pages.get? i.toNat with
    | some p => .page p
    | none => .absent

/-- Book.getMIMEType (book.js lines 207-212): throws without a BookBinder. -/
def Book.getMIMEType (b : Book) : Except BookError String :=
  match b.bookBinder with
  | none => .error .notBound
  | some bb => .ok bb.mimeType

/-- Book.getLoadingPercentage (book.js lines 215-218): 0 without a binder. -/
def Book.getLoadingPercentage (b : Book) : Int :=
  match b.bookBinder with
  | none => 0
  | some bb => bb.loadingPct

/-- Book.getUnarchivingPercentage (book.js lines 219-222). -/
def Book.getUnarchivingPercentage (b : Book) : Int :=
  match b.bookBinder with
  | none => 0
  | some bb => bb.unarchivingPct

/-- Book.getLayoutPercentage (book.js lines 223-226). -/
def Book.getLayoutPercentage (b : Book) : Int :=
  match b.bookBinder with
  | none => 0
  | some bb => bb.layoutPct

/-- Book.getNumberOfPages (book.js line 227). -/
def Book.getNumberOfPages (b : Book) : Nat := b.totalPages

/-- Book.getNumberOfPagesReady (book.js line 228). -/
def Book.getNumberOfPagesReady (b : Book) : Nat := b.pages.length

/-- Book.getMetadata (book.js line 204): returns the live reference. -/
def Book.getMetadata (b : Book) : Option Nat := b.bookMetadata

/-- Observable actions of the orchestrator, in the order the source
performs them: the one-way flag writes, the event dispatches on the Book,
the byte-accumulation writes into #arrayBuffer (the defensive copy in
startBookBinding and each appendBytes call), and the appendBytes feeds
into the BookBinder. -/
inductive TraceAct where
  | setNeedsLoadingFalse
  | dispatchLoadingStarted
  | setStartedBinding
  | bufferWrite
  | setBookMetadata
  | setBookBinder
  | binderAppend
  | setFinishedLoading
  | dispatchLoadingComplete
  | setFinishedBinding
  | dispatchBindingComplete
  | dispatchPageExtracted
  | dispatchProgress
  deriving DecidableEq

/-- Outcome of running a load method: the post-state of the Book, the
thrown error if any (an exception inside an async body rejects the
returned promise), and the ordered trace of observable actions. -/
structure LoadResult where
  book : Book
  err : Option BookError
  trace : List TraceAct
  deriving DecidableEq

/-- Synchronous part of Book.startBookBinding (book.js lines 549-558), up
to the first await: the double-bind guard, the startedBinding latch, and
the defensive copy of the initial chunk into #arrayBuffer. -/
def startBookBindingSync (b : Book) (ab : Buf) : LoadResult :=
  if b.startedBinding then { book := b, err := some .doubleBind, trace := [] }
  else
    { book := { b with startedBinding := true, arrayBuffer := some (copyBuf ab) },
      err := none,
      trace := [.setStartedBinding, .bufferWrite] }

/-- Remainder of startBookBinding after createBookBinderAsync resolves
(book.js lines 560-598): createEmptyMetadata (modelled as a fresh record
reference 0), the event subscriptions, await of bookBinder.start, and the
publication of #bookBinder. The binder produced by the external factory is
a parameter. -/
def startBookBindingRest (b : Book) (bn : BookBinder) : Book × List TraceAct :=
  ({ b with bookMetadata := some 0, bookBinder := some bn },
   [.setBookMetadata, .setBookBinder])

/-- startBookBinding when its promise is awaited to completion before the
caller continues (the loadFromFetch chunk path awaits it). -/
def startBookBindingFull (b : Book) (ab : Buf) (bn : BookBinder) : LoadResult :=
  let r := startBookBindingSync b ab
  match r.err with
  | some e => { book := r.book, err := some e, trace := r.trace }
  | none =>
    let (b2, t2) := startBookBindingRest r.book bn
    { book := b2, err := none, trace := r.trace ++ t2 }

/-- Book.loadFromXhr (book.js lines 292-332): the needsLoading guard, the
URI guard, the needsLoading latch, the BookLoadingStartedEvent dispatch;
then xhr.onload runs the synchronous part of startBookBinding (the call is
not awaited), latches finishedLoading, dispatches
BookLoadingCompleteEvent, and the asynchronous remainder of the binding
runs afterwards. The XHR response bytes are a parameter. -/
def loadFromXhr (b : Book) (resp : Buf) (bn : BookBinder) : LoadResult :=
  if !b.needsLoading then { book := b, err := some .invalidState, trace := [] }
  else if !(strTruthy b.uri) then { book := b, err := some .sourceMismatch, trace := [] }
  else
    let b1 := { b with needsLoading := false }
    let t1 : List TraceAct := [.setNeedsLoadingFalse, .dispatchLoadingStarted]
    let r := startBookBindingSync b1 resp
    match r.err with
    | some e => { book := r.book, err := some e, trace := t1 ++ r.trace }
    | none =>
      let b2 := { r.book with finishedLoading := true }
      let (b3, t3) := startBookBindingRest b2 bn
      { book := b3, err := none,
        trace := t1 ++ r.trace ++ [.setFinishedLoading, .dispatchLoadingComplete] ++ t3 }

/-- Book.loadFromFile (book.js lines 418-452): the needsLoading guard, the
no-URI guard, the file-or-fileHandle guard, the needsLoading latch (set
before awaiting the file handle), the BookLoadingStartedEvent dispatch;
then fr.onload behaves as in loadFromXhr. The file bytes are a parameter. -/
def loadFromFile (b : Book) (ab : Buf) (bn : BookBinder) : LoadResult :=
  if !b.needsLoading then { book := b, err := some .invalidState, trace := [] }
  else if strTruthy b.uri then { book := b, err := some .sourceMismatch, trace := [] }
  else if b.file.isNone && !b.fileHandle.truthy then
    { book := b, err := some .sourceMismatch, trace := [] }
  else
    let b1 := { b with needsLoading := false }
    let t1 : List TraceAct := [.setNeedsLoadingFalse, .dispatchLoadingStarted]
    let r := startBookBindingSync b1 ab
    match r.err with
    | some e => { book := r.book, err := some e, trace := t1 ++ r.trace }
    | none =>
      let b2 := { r.book with finishedLoading := true }
      let (b3, t3) := startBookBindingRest b2 bn
      { book := b3, err := none,
        trace := t1 ++ r.trace ++ [.setFinishedLoading, .dispatchLoadingComplete] ++ t3 }

/-- Book.loadFromArrayBuffer (book.js lines 459-473): same shape as the
file loader but with the buffer passed in directly and no file guard; the
startBookBinding call is not awaited, so finishedLoading and the
BookLoadingCompleteEvent dispatch precede the binder resolution. -/
def loadFromArrayBuffer (b : Book) (ab : Buf) (bn : BookBinder) : LoadResult :=
  if !b.needsLoading then { book := b, err := some .invalidState, trace := [] }
  else if strTruthy b.uri then { book := b, err := some .sourceMismatch, trace := [] }
  else
    let b1 := { b with needsLoading := false }
    let t1 : List TraceAct := [.setNeedsLoadingFalse, .dispatchLoadingStarted]
    let r := startBookBindingSync b1 ab
    match r.err with
    | some e => { book := r.book, err := some e, trace := t1 ++ r.trace }
    | none =>
      let b2 := { r.book with finishedLoading := true }
      let (b3, t3) := startBookBindingRest b2 bn
      { book := b3, err := none,
        trace := t1 ++ r.trace ++ [.setFinishedLoading, .dispatchLoadingComplete] ++ t3 }

/-- Per-chunk actions of the loadFromFetch while loop (book.js lines
392-396): this.appendBytes then bookBinder.appendBytes, per chunk in
arrival order. -/
def fetchChunkTrace : List Buf → List TraceAct
  | [] => []
  | _ :: rest => .bufferWrite :: .binderAppend :: fetchChunkTrace rest

/-- Book.loadFromFetch in its chunk-by-chunk mode (book.js lines 338-413):
the needsLoading guard, the Request guard, the needsLoading latch, the
BookLoadingStartedEvent dispatch; the first chunk (or an error when the
body yields none) starts the binding, which is awaited to completion;
every later chunk is appended to the Book buffer and fed to the binder in
arrival order; then finishedLoading latches and
BookLoadingCompleteEvent is dispatched. The fetched chunks are a
parameter. -/
def loadFromFetch (b : Book) (chunks : List Buf) (bn : BookBinder) : LoadResult :=
  if !b.needsLoading then { book := b, err := some .invalidState, trace := [] }
  else if b.request.isNone then { book := b, err := some .sourceMismatch, trace := [] }
  else
    let b1 := { b with needsLoading := false }
    let t1 : List TraceAct := [.setNeedsLoadingFalse, .dispatchLoadingStarted]
    match chunks with
    | [] => { book := b1, err := some .fetchNoChunk, trace := t1 }
    | c0 :: rest =>
      let r := startBookBindingFull b1 c0 bn
      match r.err with
      | some e => { book := r.book, err := some e, trace := t1 ++ r.trace }
      | none =>
        { book := { r.book with
                      arrayBuffer := some (accumulateFetchChunks c0 rest),
                      finishedLoading := true },
          err := none,
          trace := t1 ++ r.trace ++ fetchChunkTrace rest
                   ++ [.setFinishedLoading, .dispatchLoadingComplete] }

/-- Events delivered by a BookPump (book-pump.js): a data-received event
carrying a chunk, or the end signal. -/
inductive PumpEv where
  | data (ab : Buf)
  | stop
  deriving DecidableEq

/-- The chunks carried by the data events of a pump event list, in order. -/
def dataChunks : List PumpEv → List Buf
  | [] => []
  | .data ab :: rest => ab :: dataChunks rest
  | .stop :: rest => dataChunks rest

/-- What the BookPump path of the Book produces: the initial buffer handed
to createBookBinderAsync, the ordered list of chunks fed to
bookBinder.appendBytes, the accumulated Book buffer, and whether the end
signal latched finishedLoading. -/
structure PumpResult where
  binderInit : Buf
  binderAppends : List Buf
  buffer : Buf
  finishedLoading : Bool
  deriving DecidableEq

/-- One queued BookPump continuation (book.js lines 506-520), replayed
after the binder promise resolves: a data event feeds the binder then the
Book buffer; the end event latches finishedLoading, dispatches
BookLoadingCompleteEvent and resolves. -/
def pumpStep (r : PumpResult) (ev : PumpEv) : PumpResult :=
  match ev with
  | .data ab =>
    { r with binderAppends := r.binderAppends ++ [ab],
             buffer := appendBytes r.buffer ab }
  | .stop => { r with finishedLoading := true }

/-- BookPump processing (book.js lines 480-527): the first data event
starts the binding with its chunk as the initial buffer (defensively
copied into the Book buffer by startBookBinding); every later event is
registered as a then-continuation of the binder promise and replayed in
FIFO registration order, which is its arrival order, once the promise
resolves. -/
def pumpRun (a0 : Buf) (evs : List PumpEv) : PumpResult :=
  evs.foldl pumpStep
    { binderInit := a0, binderAppends := [], buffer := copyBuf a0,
      finishedLoading := false }

/-- Per-event actions of the queued BookPump continuations, in replay
order: binder feed then Book buffer write for a data event, the
finishedLoading latch then the BookLoadingCompleteEvent dispatch for the
end event. -/
def pumpTrace : List PumpEv → List TraceAct
  | [] => []
  | .data _ :: rest => .binderAppend :: .bufferWrite :: pumpTrace rest
  | .stop :: rest => .setFinishedLoading :: .dispatchLoadingComplete :: pumpTrace rest

/-- A well-formed pump delivery: data chunks followed by the end signal. -/
def pumpEvsOf (ds : List Buf) : List PumpEv := ds.map PumpEv.data ++ [PumpEv.stop]

/-- Book.loadFromBookPump (book.js lines 480-527): the needsLoading guard,
the no-URI guard, the needsLoading latch; no BookLoadingStartedEvent is
dispatched anywhere in this method. The first data event starts the
binding and the remaining events are replayed behind the binder promise.
The first chunk and the subsequent event list are parameters. -/
def loadFromBookPump (b : Book) (a0 : Buf) (evs : List PumpEv) (bn : BookBinder) :
    LoadResult :=
  if !b.needsLoading then { book := b, err := some .invalidState, trace := [] }
  else if strTruthy b.uri then { book := b, err := some .sourceMismatch, trace := [] }
  else
    let b1 := { b with needsLoading := false }
    let r := startBookBindingFull b1 a0 bn
    match r.err with
    | some e => { book := r.book, err := some e, trace := TraceAct.setNeedsLoadingFalse :: r.trace }
    | none =>
      let p := pumpRun a0 evs
      { book := { r.book with
                    arrayBuffer := some p.buffer,
                    finishedLoading := r.book.finishedLoading || p.finishedLoading },
        err := none,
        trace := TraceAct.setNeedsLoadingFalse :: (r.trace ++ pumpTrace evs) }

/-- Book.load (book.js lines 274-283): dispatch on the populated source
kind, in source order; throws when no source kind is resolvable. The
external bytes are passed as a chunk list; the single-buffer strategies
receive their flattening. -/
def Book.load (b : Book) (chunks : List Buf) (bn : BookBinder) : LoadResult :=
  if b.request.isSome then loadFromFetch b chunks bn
  else if strTruthy b.uri then loadFromXhr b chunks.flatten bn
  else if b.file.isSome || b.fileHandle.truthy then loadFromFile b chunks.flatten bn
  else { book := b, err := some .sourceMismatch, trace := [] }

/-- The BINDING_COMPLETE listener (book.js lines 568-571): latch
finishedBinding and dispatch BookBindingCompleteEvent. -/
def handleBindingComplete (b : Book) : Book × List TraceAct :=
  ({ b with finishedBinding := true }, [.setFinishedBinding, .dispatchBindingComplete])

/-- The METADATA_XML_EXTRACTED listener (book.js lines 573-575): replace
the metadata reference wholesale. -/
def handleMetadataXmlExtracted (b : Book) (m : Nat) : Book × List TraceAct :=
  ({ b with bookMetadata := some m }, [.setBookMetadata])

/-- The PAGE_EXTRACTED listener (book.js lines 577-583): push the page and
dispatch BookPageExtractedEvent. -/
def handlePageExtracted (b : Book) (p : Nat) : Book × List TraceAct :=
  ({ b with pages := b.pages ++ [p] }, [.dispatchPageExtracted])

/-- The PROGRESS listener (book.js lines 585-590): update totalPages when
the event carries a truthy total, and dispatch BookProgressEvent. -/
def handleProgress (b : Book) (totalPages : Nat) : Book × List TraceAct :=
  (if totalPages ≠ 0 then { b with totalPages := totalPages } else b,
   [.dispatchProgress])

/-- The Book-state effect of Book.setMetadata (book.js lines 535-537):
store the reference of the clone (heap threading is in setMetadata below). -/
def Book.setMetadataRef (b : Book) (r : Nat) : Book :=
  { b with bookMetadata := some r }

/-- Every modelled mutation of a Book: the five strategy loaders, the load
dispatcher, the four BookBinder event listeners, and setMetadata. An
execution of the orchestrator is a sequence of these. -/
inductive BookOp where
  | opLoadFetch (chunks : List Buf) (bn : BookBinder)
  | opLoadXhr (resp : Buf) (bn : BookBinder)
  | opLoadFile (ab : Buf) (bn : BookBinder)
  | opLoadArrayBuffer (ab : Buf) (bn : BookBinder)
  | opLoadBookPump (a0 : Buf) (evs : List PumpEv) (bn : BookBinder)
  | opLoad (chunks : List Buf) (bn : BookBinder)
  | opBindingComplete
  | opMetadataXml (m : Nat)
  | opPageExtracted (p : Nat)
  | opProgress (n : Nat)
  | opSetMetadata (r : Nat)
  deriving DecidableEq

/-- The Book-state transition of one orchestrator operation. -/
def applyOp (b : Book) (op : BookOp) : Book :=
  match op with
  | .opLoadFetch chunks bn => (loadFromFetch b chunks bn).book
  | .opLoadXhr resp bn => (loadFromXhr b resp bn).book
  | .opLoadFile ab bn => (loadFromFile b ab bn).book
  | .opLoadArrayBuffer ab bn => (loadFromArrayBuffer b ab bn).book
  | .opLoadBookPump a0 evs bn => (loadFromBookPump b a0 evs bn).book
  | .opLoad chunks bn => (b.load chunks bn).book
  | .opBindingComplete => (handleBindingComplete b).1
  | .opMetadataXml m => (handleMetadataXmlExtracted b m).1
  | .opPageExtracted p => (handlePageExtracted b p).1
  | .opProgress n => (handleProgress b n).1
  | .opSetMetadata r => b.setMetadataRef r

/-- A BookMetadata record value: its tag-to-value map as an association
list (the concrete shape is abstract to the orchestrator). -/
abbrev MetaVal := List (String × String)

/-- The metadata records live in a heap of cells so that aliasing between
the caller record and the stored record is observable; a reference is a
cell index. -/
structure MetaHeap where
  cells : List MetaVal
  deriving DecidableEq

/-- Dereference a metadata record. -/
def MetaHeap.read (h : MetaHeap) (r : Nat) : MetaVal := (h.cells.get? r).getD []

/-- Mutate a metadata record in place (what a caller does to its own
record after handing it to setMetadata). -/
def MetaHeap.write (h : MetaHeap) (r : Nat) (v : MetaVal) : MetaHeap :=
  ⟨h.cells.set r v⟩

/-- Modelled from the spec: BookMetadata.clone. The module
metadata/book-metadata.js is not under src/, so the clone operation called
by Book.setMetadata is modelled from the spec sentence that setMetadata
"stores an independent deep copy of m": clone allocates a fresh cell
holding a copy of the record value and returns its reference. -/
def MetaHeap.clone (h : MetaHeap) (r : Nat) : MetaHeap × Nat :=
  (⟨h.cells ++ [h.read r]⟩, h.cells.length)

/-- Book.setMetadata (book.js lines 535-537): this.bookMetadata :=
metadata.clone(), threading the metadata heap. -/
def setMetadata (h : MetaHeap) (b : Book) (r : Nat) : MetaHeap × Book :=
  let hr := h.clone r
  (hr.1, { b with bookMetadata := some hr.2 })

theorem pumpFold_binderInit (r : PumpResult) (evs : List PumpEv) :
    (evs.foldl pumpStep r).binderInit = r.binderInit := by
  induction evs generalizing r with
  | nil => rfl
  | cons e es ih => cases e <;> simp [List.foldl, pumpStep, ih]

theorem pumpFold_binderAppends (r : PumpResult) (evs : List PumpEv) :
    (evs.foldl pumpStep r).binderAppends = r.binderAppends ++ dataChunks evs := by
  induction evs generalizing r with
  | nil => simp [dataChunks]
  | cons e es ih =>
    cases e with
    | data ab => simp [List.foldl, pumpStep, dataChunks, ih]
    | stop => simp [List.foldl, pumpStep, dataChunks, ih]

theorem pumpFold_buffer (r : PumpResult) (evs : List PumpEv) :
    (evs.foldl pumpStep r).buffer = r.buffer ++ (dataChunks evs).flatten := by
  induction evs generalizing r with
  | nil => simp [dataChunks]
  | cons e es ih =>
    cases e with
    | data ab => simp [List.foldl, pumpStep, dataChunks, ih, appendBytes_eq_append]
    | stop => simp [List.foldl, pumpStep, dataChunks, ih]

theorem pumpRun_binderInit (a0 : Buf) (evs : List PumpEv) :
    (pumpRun a0 evs).binderInit = a0 := by
  unfold pumpRun; rw [pumpFold_binderInit]

theorem pumpRun_binderAppends (a0 : Buf) (evs : List PumpEv) :
    (pumpRun a0 evs).binderAppends = dataChunks evs := by
  unfold pumpRun; rw [pumpFold_binderAppends]; simp

theorem pumpRun_buffer (a0 : Buf) (evs : List PumpEv) :
    (pumpRun a0 evs).buffer = (a0 :: dataChunks evs).flatten := by
  unfold pumpRun; rw [pumpFold_buffer, copyBuf_eq]; simp

/-- Number of needsLoading latch writes in a trace. -/
def countFlips : List TraceAct → Nat
  | [] => 0
  | .setNeedsLoadingFalse :: rest => countFlips rest + 1
  | _ :: rest => countFlips rest

theorem countFlips_append (t1 t2 : List TraceAct) :
    countFlips (t1 ++ t2) = countFlips t1 + countFlips t2 := by
  induction t1 with
  | nil => simp [countFlips]
  | cons a t ih =>
    cases a <;> simp [countFlips, ih]
    omega

theorem countFlips_fetchChunkTrace (cs : List Buf) :
    countFlips (fetchChunkTrace cs) = 0 := by
  induction cs with
  | nil => rfl
  | cons c cs ih => simpa [fetchChunkTrace, countFlips] using ih

theorem countFlips_pumpTrace (evs : List PumpEv) :
    countFlips (pumpTrace evs) = 0 := by
  induction evs with
  | nil => rfl
  | cons e es ih => cases e <;> simpa [pumpTrace, countFlips] using ih

theorem fetchChunkTrace_no_started (cs : List Buf) :
    TraceAct.dispatchLoadingStarted ∉ fetchChunkTrace cs := by
  induction cs with
  | nil => simp [fetchChunkTrace]
  | cons c cs ih => simp [fetchChunkTrace, ih]

theorem fetchChunkTrace_no_complete (cs : List Buf) :
    TraceAct.dispatchLoadingComplete ∉ fetchChunkTrace cs := by
  induction cs with
  | nil => simp [fetchChunkTrace]
  | cons c cs ih => simp [fetchChunkTrace, ih]

theorem pumpTrace_no_started (evs : List PumpEv) :
    TraceAct.dispatchLoadingStarted ∉ pumpTrace evs := by
  induction evs with
  | nil => simp [pumpTrace]
  | cons e es ih => cases e <;> simp [pumpTrace, ih]

theorem pumpTrace_complete_of_stop (ds : List Buf) :
    TraceAct.dispatchLoadingComplete ∈ pumpTrace (pumpEvsOf ds) := by
  unfold pumpEvsOf
  induction ds with
  | nil => simp [pumpTrace]
  | cons d ds ih => simpa [pumpTrace] using ih

theorem list_get_set_ne {α : Type} (l : List α) (i j : Nat) (v : α) (hij : i ≠ j) :
    (l.set i v).get? j = l.get? j := by
  induction l generalizing i j with
  | nil => simp
  | cons a as ih =>
    cases i with
    | zero =>
      cases j with
      | zero => exact absurd rfl hij
      | succ j => simp [List.set]
    | succ i =>
      cases j with
      | zero => simp [List.set]
      | succ j => simpa [List.set] using ih i j (by omega)

theorem list_get_concat_len {α : Type} (l : List α) (a : α) :
    (l ++ [a]).get? l.length = some a := by
  induction l with
  | nil => rfl
  | cons x xs ih => exact ih

theorem list_get_set_self {α : Type} (l : List α) (i : Nat) (v : α)
    (hi : i < l.length) : (l.set i v).get? i = some v := by
  induction l generalizing i with
  | nil => simp at hi
  | cons a as ih =>
    cases i with
    | zero => rfl
    | succ i =>
      have : i < as.length := by simp at hi; omega
      simpa [List.set] using ih i this

theorem loadFromXhr_success (b : Book) (resp : Buf) (bn : BookBinder)
    (h1 : b.needsLoading = true) (h2 : strTruthy b.uri = true)
    (h3 : b.startedBinding = false) :
    (loadFromXhr b resp bn).err = none ∧
    (loadFromXhr b resp bn).book.arrayBuffer = some resp ∧
    (loadFromXhr b resp bn).book.needsLoading = false ∧
    (loadFromXhr b resp bn).book.finishedLoading = true ∧
    (loadFromXhr b resp bn).book.startedBinding = true ∧
    (loadFromXhr b resp bn).book.finishedBinding = b.finishedBinding ∧
    (loadFromXhr b resp bn).trace =
      [TraceAct.setNeedsLoadingFalse, TraceAct.dispatchLoadingStarted,
       TraceAct.setStartedBinding, TraceAct.bufferWrite,
       TraceAct.setFinishedLoading, TraceAct.dispatchLoadingComplete,
       TraceAct.setBookMetadata, TraceAct.setBookBinder] := by
  unfold loadFromXhr startBookBindingSync startBookBindingRest
  simp [h1, h2, h3, copyBuf_eq]

theorem loadFromFile_success (b : Book) (ab : Buf) (bn : BookBinder) (f : Nat)
    (h1 : b.needsLoading = true) (h2 : strTruthy b.uri = false)
    (h3 : b.file = some f) (h4 : b.startedBinding = false) :
    (loadFromFile b ab bn).err = none ∧
    (loadFromFile b ab bn).book.arrayBuffer = some ab ∧
    (loadFromFile b ab bn).book.needsLoading = false ∧
    (loadFromFile b ab bn).book.finishedLoading = true ∧
    (loadFromFile b ab bn).book.startedBinding = true ∧
    (loadFromFile b ab bn).book.finishedBinding = b.finishedBinding ∧
    (loadFromFile b ab bn).trace =
      [TraceAct.setNeedsLoadingFalse, TraceAct.dispatchLoadingStarted,
       TraceAct.setStartedBinding, TraceAct.bufferWrite,
       TraceAct.setFinishedLoading, TraceAct.dispatchLoadingComplete,
       TraceAct.setBookMetadata, TraceAct.setBookBinder] := by
  unfold loadFromFile startBookBindingSync startBookBindingRest
  simp [h1, h2, h3, h4, copyBuf_eq]

theorem loadFromArrayBuffer_success (b : Book) (ab : Buf) (bn : BookBinder)
    (h1 : b.needsLoading = true) (h2 : strTruthy b.uri = false)
    (h3 : b.startedBinding = false) :
    (loadFromArrayBuffer b ab bn).err = none ∧
    (loadFromArrayBuffer b ab bn).book.arrayBuffer = some ab ∧
    (loadFromArrayBuffer b ab bn).book.needsLoading = false ∧
    (loadFromArrayBuffer b ab bn).book.finishedLoading = true ∧
    (loadFromArrayBuffer b ab bn).book.startedBinding = true ∧
    (loadFromArrayBuffer b ab bn).book.finishedBinding = b.finishedBinding ∧
    (loadFromArrayBuffer b ab bn).trace =
      [TraceAct.setNeedsLoadingFalse, TraceAct.dispatchLoadingStarted,
       TraceAct.setStartedBinding, TraceAct.bufferWrite,
       TraceAct.setFinishedLoading, TraceAct.dispatchLoadingComplete,
       TraceAct.setBookMetadata, TraceAct.setBookBinder] := by
  unfold loadFromArrayBuffer startBookBindingSync startBookBindingRest
  simp [h1, h2, h3, copyBuf_eq]

theorem loadFromFetch_success (b : Book) (c0 : Buf) (cs : List Buf) (bn : BookBinder)
    (req : Nat) (h1 : b.needsLoading = true) (h2 : b.request = some req)
    (h3 : b.startedBinding = false) :
    (loadFromFetch b (c0 :: cs) bn).err = none ∧
    (loadFromFetch b (c0 :: cs) bn).book.arrayBuffer = some ((c0 :: cs).flatten) ∧
    (loadFromFetch b (c0 :: cs) bn).book.needsLoading = false ∧
    (loadFromFetch b (c0 :: cs) bn).book.finishedLoading = true ∧
    (loadFromFetch b (c0 :: cs) bn).book.startedBinding = true ∧
    (loadFromFetch b (c0 :: cs) bn).book.finishedBinding = b.finishedBinding ∧
    (loadFromFetch b (c0 :: cs) bn).trace =
      [TraceAct.setNeedsLoadingFalse, TraceAct.dispatchLoadingStarted,
       TraceAct.setStartedBinding, TraceAct.bufferWrite,
       TraceAct.setBookMetadata, TraceAct.setBookBinder]
      ++ fetchChunkTrace cs
      ++ [TraceAct.setFinishedLoading, TraceAct.dispatchLoadingComplete] := by
  unfold loadFromFetch startBookBindingFull startBookBindingSync startBookBindingRest
  simp [h1, h2, h3, accumulateFetchChunks_eq]

theorem loadFromBookPump_success (b : Book) (a0 : Buf) (evs : List PumpEv)
    (bn : BookBinder) (h1 : b.needsLoading = true) (h2 : strTruthy b.uri = false)
    (h3 : b.startedBinding = false) :
    (loadFromBookPump b a0 evs bn).err = none ∧
    (loadFromBookPump b a0 evs bn).book.arrayBuffer =
      some ((a0 :: dataChunks evs).flatten) ∧
    (loadFromBookPump b a0 evs bn).book.needsLoading = false ∧
    (loadFromBookPump b a0 evs bn).book.startedBinding = true ∧
    (loadFromBookPump b a0 evs bn).book.finishedBinding = b.finishedBinding ∧
    (loadFromBookPump b a0 evs bn).trace =
      TraceAct.setNeedsLoadingFalse ::
        ([TraceAct.setStartedBinding, TraceAct.bufferWrite,
          TraceAct.setBookMetadata, TraceAct.setBookBinder] ++ pumpTrace evs) := by
  unfold loadFromBookPump startBookBindingFull startBookBindingSync startBookBindingRest
  simp [h1, h2, h3, pumpRun_buffer]

theorem loadFromXhr_guard (b : Book) (resp : Buf) (bn : BookBinder)
    (h : b.needsLoading = false) :
    loadFromXhr b resp bn = { book := b, err := some .invalidState, trace := [] } := by
  unfold loadFromXhr
  simp [h]

theorem loadFromFile_guard (b : Book) (ab : Buf) (bn : BookBinder)
    (h : b.needsLoading = false) :
    loadFromFile b ab bn = { book := b, err := some .invalidState, trace := [] } := by
  unfold loadFromFile
  simp [h]

theorem loadFromArrayBuffer_guard (b : Book) (ab : Buf) (bn : BookBinder)
    (h : b.needsLoading = false) :
    loadFromArrayBuffer b ab bn = { book := b, err := some .invalidState, trace := [] } := by
  unfold loadFromArrayBuffer
  simp [h]

theorem loadFromFetch_guard (b : Book) (chunks : List Buf) (bn : BookBinder)
    (h : b.needsLoading = false) :
    loadFromFetch b chunks bn = { book := b, err := some .invalidState, trace := [] } := by
  unfold loadFromFetch
  simp [h]

theorem loadFromBookPump_guard (b : Book) (a0 : Buf) (evs : List PumpEv)
    (bn : BookBinder) (h : b.needsLoading = false) :
    loadFromBookPump b a0 evs bn =
      { book := b, err := some .invalidState, trace := [] } := by
  unfold loadFromBookPump
  simp [h]

/-- Flag monotonicity and source-field preservation of one loader result:
needsLoading can only move from true to false, the other three flags only
from false to true, finishedBinding and the four source fields are
untouched. -/
def LatchFacts (pre post : Book) : Prop :=
  (post.needsLoading = true → pre.needsLoading = true) ∧
  (pre.startedBinding = true → post.startedBinding = true) ∧
  (pre.finishedLoading = true → post.finishedLoading = true) ∧
  post.finishedBinding = pre.finishedBinding ∧
  post.uri = pre.uri ∧ post.request = pre.request ∧
  post.file = pre.file ∧ post.fileHandle = pre.fileHandle

theorem loadFromXhr_latch (b : Book) (resp : Buf) (bn : BookBinder) :
    LatchFacts b (loadFromXhr b resp bn).book := by
  unfold LatchFacts loadFromXhr startBookBindingSync startBookBindingRest
  cases h1 : b.needsLoading <;> cases h2 : strTruthy b.uri <;>
    cases h3 : b.startedBinding <;> simp [h1, h2, h3]

theorem loadFromFile_latch (b : Book) (ab : Buf) (bn : BookBinder) :
    LatchFacts b (loadFromFile b ab bn).book := by
  unfold LatchFacts loadFromFile startBookBindingSync startBookBindingRest
  cases h1 : b.needsLoading <;> cases h2 : strTruthy b.uri <;>
    cases h3 : b.startedBinding <;>
    cases h4 : b.file.isNone && !b.fileHandle.truthy <;> simp [h1, h2, h3, h4]

theorem loadFromArrayBuffer_latch (b : Book) (ab : Buf) (bn : BookBinder) :
    LatchFacts b (loadFromArrayBuffer b ab bn).book := by
  unfold LatchFacts loadFromArrayBuffer startBookBindingSync startBookBindingRest
  cases h1 : b.needsLoading <;> cases h2 : strTruthy b.uri <;>
    cases h3 : b.startedBinding <;> simp [h1, h2, h3]

theorem loadFromFetch_latch (b : Book) (chunks : List Buf) (bn : BookBinder) :
    LatchFacts b (loadFromFetch b chunks bn).book := by
  unfold LatchFacts loadFromFetch startBookBindingFull startBookBindingSync
    startBookBindingRest
  cases h1 : b.needsLoading <;> cases h2 : b.request.isNone <;>
    cases h3 : b.startedBinding <;> cases chunks <;> simp [h1, h2, h3]

theorem loadFromBookPump_latch (b : Book) (a0 : Buf) (evs : List PumpEv)
    (bn : BookBinder) :
    LatchFacts b (loadFromBookPump b a0 evs bn).book := by
  unfold LatchFacts loadFromBookPump startBookBindingFull startBookBindingSync
    startBookBindingRest
  cases h1 : b.needsLoading <;> cases h2 : strTruthy b.uri <;>
    cases h3 : b.startedBinding <;> first
      | (simp [h1, h2, h3]; tauto)
      | simp [h1, h2, h3]

theorem load_latch (b : Book) (chunks : List Buf) (bn : BookBinder) :
    LatchFacts b (b.load chunks bn).book := by
  unfold Book.load
  cases h1 : b.request.isSome <;> cases h2 : strTruthy b.uri <;>
    cases h3 : b.file.isSome || b.fileHandle.truthy <;>
    simp [h1, h2, h3, loadFromFetch_latch, loadFromXhr_latch, loadFromFile_latch]
  all_goals unfold LatchFacts
  all_goals simp

/-- The four one-way flags move only in their latch direction under one
orchestrator operation. -/
def FlagMono (pre post : Book) : Prop :=
  (post.needsLoading = true → pre.needsLoading = true) ∧
  (pre.startedBinding = true → post.startedBinding = true) ∧
  (pre.finishedLoading = true → post.finishedLoading = true) ∧
  (pre.finishedBinding = true → post.finishedBinding = true)

theorem latchFacts_flagMono (pre post : Book) (h : LatchFacts pre post) :
    FlagMono pre post := by
  obtain ⟨h1, h2, h3, h4, _⟩ := h
  exact ⟨h1, h2, h3, fun hb => by rw [h4, hb]⟩

theorem applyOp_flagMono (b : Book) (op : BookOp) : FlagMono b (applyOp b op) := by
  cases op with
  | opLoadFetch chunks bn => exact latchFacts_flagMono _ _ (loadFromFetch_latch b chunks bn)
  | opLoadXhr resp bn => exact latchFacts_flagMono _ _ (loadFromXhr_latch b resp bn)
  | opLoadFile ab bn => exact latchFacts_flagMono _ _ (loadFromFile_latch b ab bn)
  | opLoadArrayBuffer ab bn =>
    exact latchFacts_flagMono _ _ (loadFromArrayBuffer_latch b ab bn)
  | opLoadBookPump a0 evs bn =>
    exact latchFacts_flagMono _ _ (loadFromBookPump_latch b a0 evs bn)
  | opLoad chunks bn => exact latchFacts_flagMono _ _ (load_latch b chunks bn)
  | opBindingComplete => unfold FlagMono applyOp handleBindingComplete; simp
  | opMetadataXml m => unfold FlagMono applyOp handleMetadataXmlExtracted; simp
  | opPageExtracted p => unfold FlagMono applyOp handlePageExtracted; simp
  | opProgress n =>
    unfold FlagMono applyOp handleProgress
    cases h : decide (n ≠ 0) <;> simp_all
  | opSetMetadata r => unfold FlagMono applyOp Book.setMetadataRef; simp

theorem applyOp_finishedBinding_eq (b : Book) (op : BookOp)
    (h : op ≠ BookOp.opBindingComplete) :
    (applyOp b op).finishedBinding = b.finishedBinding := by
  cases op with
  | opLoadFetch chunks bn => exact (loadFromFetch_latch b chunks bn).2.2.2.1
  | opLoadXhr resp bn => exact (loadFromXhr_latch b resp bn).2.2.2.1
  | opLoadFile ab bn => exact (loadFromFile_latch b ab bn).2.2.2.1
  | opLoadArrayBuffer ab bn => exact (loadFromArrayBuffer_latch b ab bn).2.2.2.1
  | opLoadBookPump a0 evs bn => exact (loadFromBookPump_latch b a0 evs bn).2.2.2.1
  | opLoad chunks bn => exact (load_latch b chunks bn).2.2.2.1
  | opBindingComplete => exact absurd rfl h
  | opMetadataXml m => rfl
  | opPageExtracted p => rfl
  | opProgress n =>
    unfold applyOp handleProgress
    cases hd : decide (n ≠ 0) <;> simp_all
  | opSetMetadata r => rfl

theorem applyOp_sources_eq (b : Book) (op : BookOp) :
    (applyOp b op).uri = b.uri ∧ (applyOp b op).request = b.request ∧
    (applyOp b op).file = b.file ∧ (applyOp b op).fileHandle = b.fileHandle := by
  cases op with
  | opLoadFetch chunks bn => exact (loadFromFetch_latch b chunks bn).2.2.2.2
  | opLoadXhr resp bn => exact (loadFromXhr_latch b resp bn).2.2.2.2
  | opLoadFile ab bn => exact (loadFromFile_latch b ab bn).2.2.2.2
  | opLoadArrayBuffer ab bn => exact (loadFromArrayBuffer_latch b ab bn).2.2.2.2
  | opLoadBookPump a0 evs bn => exact (loadFromBookPump_latch b a0 evs bn).2.2.2.2
  | opLoad chunks bn => exact (load_latch b chunks bn).2.2.2.2
  | opBindingComplete => exact ⟨rfl, rfl, rfl, rfl⟩
  | opMetadataXml m => exact ⟨rfl, rfl, rfl, rfl⟩
  | opPageExtracted p => exact ⟨rfl, rfl, rfl, rfl⟩
  | opProgress n =>
    unfold applyOp handleProgress
    cases hd : decide (n ≠ 0) <;> simp_all
  | opSetMetadata r => exact ⟨rfl, rfl, rfl, rfl⟩

/-- A concrete BookBinder as produced by the external factory. -/
def binder0 : BookBinder :=
  { bookType := 0, mimeType := "application/vnd.comicbook+zip",
    loadingPct := 100, unarchivingPct := 100, layoutPct := 100 }

/-- A freshly constructed Book whose source is a FileSystemFileHandle. -/
def freshABBook : Book :=
  { name := "a", uri := none, request := none, file := none,
    fileHandle := CtorArg.fileHandle 7, arrayBuffer := none,
    bookBinder := none, bookMetadata := none, expectedSize := -1,
    finishedBinding := false, finishedLoading := false, needsLoading := true,
    pages := [], startedBinding := false, totalPages := 0 }

/-- A freshly constructed Book whose source is a URI. -/
def freshXhrBook : Book := { freshABBook with uri := some "u", fileHandle := CtorArg.undef }

/-- A freshly constructed Book whose source is a File. -/
def freshFileBook : Book := { freshABBook with file := some 3, fileHandle := CtorArg.undef }

/-- A freshly constructed Book whose source is a Request. -/
def freshFetchBook : Book :=
  { freshABBook with request := some 5, fileHandle := CtorArg.undef }

/-- C1: for every sequence of chunks delivered through any ingestion
strategy (one-shot buffer, fetch streaming, XHR, file, push-producer), the
final accumulated byte sequence of the Book equals the ordered
concatenation of the chunks and its length equals the sum of the chunk
lengths; appendBytes allocates a fresh buffer of size old.length +
chunk.length holding old followed by chunk (freshness is the functional
allocation of appendBytes: the operands are left intact). -/
theorem claimC1_byte_accumulation
    (old chunk c0 a0 oneShot respXhr fileAb : Buf) (cs : List Buf)
    (evs : List PumpEv) (bA bX bF bT : Book) (bn : BookBinder) (f req : Nat)
    (hA1 : bA.needsLoading = true) (hA2 : strTruthy bA.uri = false)
    (hA3 : bA.startedBinding = false)
    (hX1 : bX.needsLoading = true) (hX2 : strTruthy bX.uri = true)
    (hX3 : bX.startedBinding = false)
    (hF1 : bF.needsLoading = true) (hF2 : strTruthy bF.uri = false)
    (hF3 : bF.file = some f) (hF4 : bF.startedBinding = false)
    (hT1 : bT.needsLoading = true) (hT2 : bT.request = some req)
    (hT3 : bT.startedBinding = false) :
    appendBytes old chunk = old ++ chunk ∧
    (appendBytes old chunk).length = old.length + chunk.length ∧
    copyBuf old = old ∧
    accumulateFetchChunks c0 cs = (c0 :: cs).flatten ∧
    (accumulateFetchChunks c0 cs).length = ((c0 :: cs).map List.length).sum ∧
    (pumpRun a0 evs).buffer = (a0 :: dataChunks evs).flatten ∧
    (loadFromArrayBuffer bA oneShot bn).book.arrayBuffer = some oneShot ∧
    (loadFromXhr bX respXhr bn).book.arrayBuffer = some respXhr ∧
    (loadFromFile bF fileAb bn).book.arrayBuffer = some fileAb ∧
    (loadFromFetch bT (c0 :: cs) bn).book.arrayBuffer = some ((c0 :: cs).flatten) ∧
    (loadFromBookPump bA a0 evs bn).book.arrayBuffer =
      some ((a0 :: dataChunks evs).flatten) := by
  refine ⟨appendBytes_eq_append old chunk, appendBytes_length old chunk,
    copyBuf_eq old, accumulateFetchChunks_eq c0 cs, ?_, pumpRun_buffer a0 evs,
    (loadFromArrayBuffer_success bA oneShot bn hA1 hA2 hA3).2.1,
    (loadFromXhr_success bX respXhr bn hX1 hX2 hX3).2.1,
    (loadFromFile_success bF fileAb bn f hF1 hF2 hF3 hF4).2.1,
    (loadFromFetch_success bT c0 cs bn req hT1 hT2 hT3).2.1,
    (loadFromBookPump_success bA a0 evs bn hA1 hA2 hA3).2.1⟩
  rw [accumulateFetchChunks_eq]
  simp [List.length_flatten]

/-- Witness for C1 at concrete chunks and freshly constructed Books. -/
theorem claimC1_byte_accumulation_witness :
    appendBytes [1] [2, 3] = [1, 2, 3] :=
  (claimC1_byte_accumulation [1] [2, 3] [4] [9] [5] [6] [7] [[10]]
    [PumpEv.data [8], PumpEv.stop] freshABBook freshXhrBook freshFileBook
    freshFetchBook binder0 3 5 (by decide) (by decide) (by decide) (by decide)
    (by decide) (by decide) (by decide) (by decide) (by decide) (by decide)
    (by decide) (by decide) (by decide)).1

/-- C2 counterexample: pump chunks A = the single byte 1 and B = the
single byte 2 both arrive before the binder promise resolves (A is the
first data event, so it triggers the binder construction). The claim says
the Binder then observes appendBytes(A) strictly before appendBytes(B);
in the code the first chunk is consumed as the initial buffer of
createBookBinderAsync and is never passed to the appendBytes of the
binder, so no appendBytes(A) exists at all: the replayed append list is
exactly the one-element list holding B. -/
theorem claimC2_counterexample :
    ¬ ∃ i j : Nat, i < j ∧
      (pumpRun [1] [PumpEv.data [2], PumpEv.stop]).binderAppends.get? i = some [1] ∧
      (pumpRun [1] [PumpEv.data [2], PumpEv.stop]).binderAppends.get? j = some [2] := by
  intro hcl
  obtain ⟨i, j, _, hi, hj⟩ := hcl
  have happ : (pumpRun [1] [PumpEv.data [2], PumpEv.stop]).binderAppends = [[2]] := by
    decide
  rw [happ] at hi
  match i, hi with
  | 0, hi => exact absurd hi (by decide)
  | n + 1, hi => exact Option.noConfusion hi

/-- C2 amended: in the push-producer strategy the first-arriving chunk is
delivered to the Binder as its initial buffer, before every append; every
later data chunk is replayed through the appendBytes of the binder
strictly in arrival order once construction resolves (the queued
continuations of one promise run in FIFO registration order), so for any
two queued chunks A then B, appendBytes(A) precedes appendBytes(B), and
the full byte sequence the Binder observes equals the chunk arrival
order. -/
theorem claimC2_pump_order (a0 : Buf) (evs : List PumpEv) :
    (pumpRun a0 evs).binderInit = a0 ∧
    (pumpRun a0 evs).binderAppends = dataChunks evs ∧
    (pumpRun a0 evs).buffer = (a0 :: dataChunks evs).flatten ∧
    (∀ i j : Nat, i < j → ∀ A B : Buf,
      (dataChunks evs).get? i = some A → (dataChunks evs).get? j = some B →
      ∃ k l : Nat, k < l ∧
        (pumpRun a0 evs).binderAppends.get? k = some A ∧
        (pumpRun a0 evs).binderAppends.get? l = some B) := by
  refine ⟨pumpRun_binderInit a0 evs, pumpRun_binderAppends a0 evs,
    pumpRun_buffer a0 evs, ?_⟩
  intro i j hij A B hA hB
  exact ⟨i, j, hij, by rw [pumpRun_binderAppends]; exact hA,
    by rw [pumpRun_binderAppends]; exact hB⟩

/-- Witness for C2 at a concrete pump delivery with two queued chunks. -/
theorem claimC2_pump_order_witness :
    ∃ k l : Nat, k < l ∧
      (pumpRun [0] [PumpEv.data [1], PumpEv.data [2], PumpEv.stop]).binderAppends.get? k
        = some [1] ∧
      (pumpRun [0] [PumpEv.data [1], PumpEv.data [2], PumpEv.stop]).binderAppends.get? l
        = some [2] :=
  (claimC2_pump_order [0] [PumpEv.data [1], PumpEv.data [2], PumpEv.stop]).2.2.2
    0 1 (by decide) [1] [2] (by decide) (by decide)

/-- The Book produced by the constructor when the optional source argument
is left undefined: a valid name, no source kind populated. -/
def noSourceBook : Book :=
  { name := "book", uri := none, request := none, file := none,
    fileHandle := CtorArg.undef, arrayBuffer := none, bookBinder := none,
    bookMetadata := none, expectedSize := -1, finishedBinding := false,
    finishedLoading := false, needsLoading := true, pages := [],
    startedBinding := false, totalPages := 0 }

/-- Book.load on a Book with no JS-truthy source field falls through all
three dispatch branches of book.js lines 274-283 and throws the no-source
error, leaving the Book unchanged. -/
theorem load_noSource (b : Book) (chunks : List Buf) (bn : BookBinder)
    (h0 : sourceKindCount b = 0) :
    b.load chunks bn =
      { book := b, err := some BookError.sourceMismatch, trace := [] } := by
  unfold sourceKindCount at h0
  by_cases c1 : b.request.isSome = true
  · rw [c1] at h0
    simp at h0
  · by_cases c2 : strTruthy b.uri = true
    · rw [c2] at h0
      simp at h0
    · by_cases c3 : b.file.isSome = true
      · rw [c3] at h0
        simp at h0
      · by_cases c4 : b.fileHandle.truthy = true
        · rw [c4] at h0
          simp at h0
        · unfold Book.load
          simp [c1, c2, c3, c4]

/-- C3 counterexample: a Book constructed with no source argument (zero
source kinds populated) can still be loaded once through
loadFromArrayBuffer, which only rejects a truthy URI; that run latches
needsLoading to false. A second call to load() on this Book then falls
through all three dispatch branches and throws the no-source
SourceMismatch error, not InvalidStateError, refuting the claim that a
re-entrant load() always fails with InvalidStateError. -/
theorem claimC3_counterexample :
    (loadFromArrayBuffer noSourceBook [1] binder0).err = none ∧
    (loadFromArrayBuffer noSourceBook [1] binder0).book.needsLoading = false ∧
    ((loadFromArrayBuffer noSourceBook [1] binder0).book.load [] binder0).err =
      some BookError.sourceMismatch ∧
    some BookError.sourceMismatch ≠ some BookError.invalidState := by decide

/-- C3 amended: each of the five strategy loaders, called when
needsLoading is already false, fails with InvalidStateError from its
first guard and returns the Book (its byte sequence and all four flags)
unchanged; a second load() likewise fails with InvalidStateError and an
unchanged Book whenever some source kind is populated, while on a Book
with zero populated source kinds the dispatch of load() precedes the
re-entrancy guards and a second load() instead fails with
SourceMismatchError, still leaving the Book unchanged. -/
theorem claimC3_reentrant_load (b : Book) (chunks : List Buf)
    (resp ab a0 : Buf) (evs : List PumpEv) (bn : BookBinder)
    (h : b.needsLoading = false) :
    loadFromFetch b chunks bn = { book := b, err := some .invalidState, trace := [] } ∧
    loadFromXhr b resp bn = { book := b, err := some .invalidState, trace := [] } ∧
    loadFromFile b ab bn = { book := b, err := some .invalidState, trace := [] } ∧
    loadFromArrayBuffer b ab bn =
      { book := b, err := some .invalidState, trace := [] } ∧
    loadFromBookPump b a0 evs bn =
      { book := b, err := some .invalidState, trace := [] } ∧
    ((b.request.isSome = true ∨ strTruthy b.uri = true ∨
      b.file.isSome = true ∨ b.fileHandle.truthy = true) →
      b.load chunks bn = { book := b, err := some .invalidState, trace := [] }) ∧
    (sourceKindCount b = 0 →
      b.load chunks bn =
        { book := b, err := some .sourceMismatch, trace := [] }) := by
  have hfetch := loadFromFetch_guard b chunks bn h
  have hxhr := loadFromXhr_guard b chunks.flatten bn h
  have hfile := loadFromFile_guard b chunks.flatten bn h
  refine ⟨loadFromFetch_guard b chunks bn h, loadFromXhr_guard b resp bn h,
    loadFromFile_guard b ab bn h, loadFromArrayBuffer_guard b ab bn h,
    loadFromBookPump_guard b a0 evs bn h, ?_,
    fun h0 => load_noSource b chunks bn h0⟩
  intro hsrc
  unfold Book.load
  rcases hsrc with hs | hs | hs | hs <;>
    cases h1 : b.request.isSome <;> cases h2 : strTruthy b.uri <;>
    cases h3 : b.file.isSome || b.fileHandle.truthy <;>
    simp_all [hfetch, hxhr, hfile]

/-- Witness for C3: a Book that has already loaded via its URI, exercising
both one strategy loader and the populated-source load() implication. -/
theorem claimC3_reentrant_load_witness :
    loadFromXhr { freshXhrBook with needsLoading := false } [3] binder0 =
      { book := { freshXhrBook with needsLoading := false },
        err := some BookError.invalidState, trace := [] } ∧
    ({ freshXhrBook with needsLoading := false } : Book).load [[3]] binder0 =
      { book := { freshXhrBook with needsLoading := false },
        err := some BookError.invalidState, trace := [] } :=
  ⟨(claimC3_reentrant_load { freshXhrBook with needsLoading := false } [[3]] [3]
      [] [] [] binder0 (by decide)).2.1,
   (claimC3_reentrant_load { freshXhrBook with needsLoading := false } [[3]] [3]
      [] [] [] binder0 (by decide)).2.2.2.2.2.1
     (Or.inr (Or.inl (by decide)))⟩

/-- A reachable Book state in which extraction outran the reported total:
two PAGE_EXTRACTED events arrive, then a PROGRESS event reporting a total
of 1 page (the binder events are external inputs which the orchestrator
does not validate). -/
def pagesAheadBook : Book :=
  applyOp (applyOp (applyOp freshABBook (BookOp.opPageExtracted 10))
    (BookOp.opPageExtracted 20)) (BookOp.opProgress 1)

/-- C4 counterexample: in the state pagesAheadBook (pages = [10, 20],
totalPages = 1, reached from a fresh Book by three binder events), the
claimed bound max(totalPageCount, pages.length) is 2 and the claim says
getPage 1 returns the stored page 20; the code computes its bound as
this.totalPages with a fallback to pages.length only when totalPages is 0,
giving 1, and returns the null not-found result instead. -/
theorem claimC4_counterexample :
    pagesAheadBook.pages.length = 2 ∧ pagesAheadBook.totalPages = 1 ∧
    (0 : Int) ≤ 1 ∧
    (1 : Int) < (max pagesAheadBook.totalPages pagesAheadBook.pages.length : Nat) ∧
    pagesAheadBook.pages.get? 1 = some 20 ∧
    pagesAheadBook.getPage 1 = PageResult.notFound ∧
    PageResult.notFound ≠ PageResult.page 20 := by decide

/-- C4 amended: getPage is total (it never throws); it returns the null
not-found result exactly when the index is outside the code bound
numPages, which is totalPages with fallback to pages.length when
totalPages is 0; inside the bound it returns the stored page, or the
absent undefined value when extraction lags the bound; and the code bound
agrees with max(totalPageCount, pages.length) exactly on the states
satisfying the documented invariant totalPages = 0 or
pages.length <= totalPages. -/
theorem claimC4_getPage_bound (b : Book) (i : Int) :
    (b.getPage i = PageResult.notFound ↔ (i < 0 ∨ (b.numPages : Int) ≤ i)) ∧
    (0 ≤ i → i < (b.numPages : Int) →
      b.getPage i = (match b.pages.get? i.toNat with
                     | some p => PageResult.page p
                     | none => PageResult.absent)) ∧
    ((b.totalPages = 0 ∨ b.pages.length ≤ b.totalPages) →
      b.numPages = max b.totalPages b.pages.length) := by
  refine ⟨?_, ?_, ?_⟩
  · constructor
    · intro hres
      by_contra hc
      push_neg at hc
      have hin : ¬ (i < 0 ∨ (b.numPages : Int) ≤ i) := by
        push_neg
        exact hc
      unfold Book.getPage at hres
      rw [if_neg hin] at hres
      cases hg : b.pages.get? i.toNat <;> rw [hg] at hres <;> simp at hres
    · intro hc
      unfold Book.getPage
      rw [if_pos hc]
  · intro h0 hlt
    unfold Book.getPage
    rw [if_neg (by push_neg; exact ⟨not_lt.mp (by omega), hlt⟩)]
  · intro hinv
    unfold Book.numPages
    rcases hinv with h0 | hle
    · simp [h0]
    · by_cases ht : b.totalPages = 0
      · have : b.pages.length = 0 := by omega
        simp [ht, this]
      · simp [ht]
        omega

/-- Witness for C4 on a state whose reported total exceeds the extracted
pages, exercising the in-bound branch and the max agreement. -/
theorem claimC4_getPage_bound_witness :
    ({ freshABBook with pages := [10, 20], totalPages := 3 } : Book).getPage 1 =
      PageResult.page 20 ∧
    ({ freshABBook with pages := [10, 20], totalPages := 3 } : Book).numPages =
      max ({ freshABBook with pages := [10, 20], totalPages := 3 } : Book).totalPages
        ({ freshABBook with pages := [10, 20], totalPages := 3 } : Book).pages.length := by
  constructor
  · have h := (claimC4_getPage_bound
      { freshABBook with pages := [10, 20], totalPages := 3 } 1).2.1
      (by decide) (by decide)
    rw [h]
    decide
  · exact (claimC4_getPage_bound
      { freshABBook with pages := [10, 20], totalPages := 3 } 1).2.2
      (Or.inr (by decide))

/-- C5: each of the four flags is a one-way latch under every modelled
orchestrator operation; a second invocation of the binding pipeline fails
with the double-bind error and changes nothing; and in every successful
loader run the needsLoading latch write is the very first action of the
trace (hence strictly before the first byte is accumulated) and occurs in
the trace exactly once. -/
theorem claimC5_flag_latches (b bS : Book) (op : BookOp) (ab : Buf)
    (bD bX bF bT : Book) (oneShot resp fileAb c0 a0 : Buf) (cs : List Buf)
    (evs : List PumpEv) (bn : BookBinder) (f req : Nat)
    (hsb : bS.startedBinding = true)
    (hD1 : bD.needsLoading = true) (hD2 : strTruthy bD.uri = false)
    (hD3 : bD.startedBinding = false)
    (hX1 : bX.needsLoading = true) (hX2 : strTruthy bX.uri = true)
    (hX3 : bX.startedBinding = false)
    (hF1 : bF.needsLoading = true) (hF2 : strTruthy bF.uri = false)
    (hF3 : bF.file = some f) (hF4 : bF.startedBinding = false)
    (hT1 : bT.needsLoading = true) (hT2 : bT.request = some req)
    (hT3 : bT.startedBinding = false) :
    ((applyOp b op).needsLoading = true → b.needsLoading = true) ∧
    (b.startedBinding = true → (applyOp b op).startedBinding = true) ∧
    (b.finishedLoading = true → (applyOp b op).finishedLoading = true) ∧
    (b.finishedBinding = true → (applyOp b op).finishedBinding = true) ∧
    startBookBindingSync bS ab =
      { book := bS, err := some BookError.doubleBind, trace := [] } ∧
    (∃ t, (loadFromArrayBuffer bD oneShot bn).trace =
        TraceAct.setNeedsLoadingFalse :: t ∧ countFlips t = 0) ∧
    (∃ t, (loadFromXhr bX resp bn).trace =
        TraceAct.setNeedsLoadingFalse :: t ∧ countFlips t = 0) ∧
    (∃ t, (loadFromFile bF fileAb bn).trace =
        TraceAct.setNeedsLoadingFalse :: t ∧ countFlips t = 0) ∧
    (∃ t, (loadFromFetch bT (c0 :: cs) bn).trace =
        TraceAct.setNeedsLoadingFalse :: t ∧ countFlips t = 0) ∧
    (∃ t, (loadFromBookPump bD a0 evs bn).trace =
        TraceAct.setNeedsLoadingFalse :: t ∧ countFlips t = 0) := by
  obtain ⟨m1, m2, m3, m4⟩ := applyOp_flagMono b op
  refine ⟨m1, m2, m3, m4, ?_, ?_, ?_, ?_, ?_, ?_⟩
  · unfold startBookBindingSync
    rw [if_pos hsb]
  · rw [(loadFromArrayBuffer_success bD oneShot bn hD1 hD2 hD3).2.2.2.2.2.2]
    exact ⟨_, rfl, by decide⟩
  · rw [(loadFromXhr_success bX resp bn hX1 hX2 hX3).2.2.2.2.2.2]
    exact ⟨_, rfl, by decide⟩
  · rw [(loadFromFile_success bF fileAb bn f hF1 hF2 hF3 hF4).2.2.2.2.2.2]
    exact ⟨_, rfl, by decide⟩
  · rw [(loadFromFetch_success bT c0 cs bn req hT1 hT2 hT3).2.2.2.2.2.2]
    refine ⟨_, rfl, ?_⟩
    simp only [List.append_eq]
    rw [countFlips_append, countFlips_append, countFlips_fetchChunkTrace]
    decide
  · rw [(loadFromBookPump_success bD a0 evs bn hD1 hD2 hD3).2.2.2.2.2]
    refine ⟨_, rfl, ?_⟩
    rw [countFlips_append, countFlips_pumpTrace]
    decide

/-- Witness for C5 on a Book that already started binding and freshly
constructed Books for each strategy. -/
theorem claimC5_flag_latches_witness :
    startBookBindingSync { freshABBook with startedBinding := true } [9] =
      { book := { freshABBook with startedBinding := true },
        err := some BookError.doubleBind, trace := [] } :=
  (claimC5_flag_latches freshABBook { freshABBook with startedBinding := true }
    (BookOp.opProgress 3) [9] freshABBook freshXhrBook freshFileBook
    freshFetchBook [5] [6] [7] [4] [9] [[10]] [PumpEv.data [8], PumpEv.stop]
    binder0 3 5 (by decide) (by decide) (by decide) (by decide) (by decide)
    (by decide) (by decide) (by decide) (by decide) (by decide) (by decide)
    (by decide) (by decide) (by decide)).2.2.2.2.1

/-- C6 counterexample: a successful concrete loadFromBookPump run
accumulates bytes (a bufferWrite action is in its trace) yet its trace
contains no loading-started dispatch: unlike the other four strategies,
the source of loadFromBookPump never dispatches BookLoadingStartedEvent,
so the orchestrator does not emit loading-started at the beginning of
every ingestion strategy. -/
theorem claimC6_counterexample :
    (loadFromBookPump freshABBook [1] [PumpEv.data [2], PumpEv.stop] binder0).err
      = none ∧
    TraceAct.bufferWrite ∈
      (loadFromBookPump freshABBook [1] [PumpEv.data [2], PumpEv.stop] binder0).trace ∧
    TraceAct.dispatchLoadingStarted ∉
      (loadFromBookPump freshABBook [1] [PumpEv.data [2], PumpEv.stop] binder0).trace := by
  decide

/-- C6 amended: the one-shot, XHR, file and fetch strategies emit
loading-started before any byte is accumulated and emit loading-complete
after all source bytes are consumed and fed, as their traces show; the
push-producer strategy emits no loading-started at all (its trace never
contains the dispatch) while still emitting loading-complete on the end
signal; loading-complete is dispatched while finishedBinding is still
false, and finishedBinding becomes true only through the binding-complete
listener, the only operation that changes it. -/
theorem claimC6_loading_milestones (b2 : Book) (op2 : BookOp)
    (bD bX bF bT bP : Book) (oneShot resp fileAb c0 a0 : Buf)
    (cs ds : List Buf) (bn : BookBinder) (f req : Nat)
    (hop : op2 ≠ BookOp.opBindingComplete)
    (hD1 : bD.needsLoading = true) (hD2 : strTruthy bD.uri = false)
    (hD3 : bD.startedBinding = false) (hD4 : bD.finishedBinding = false)
    (hX1 : bX.needsLoading = true) (hX2 : strTruthy bX.uri = true)
    (hX3 : bX.startedBinding = false)
    (hF1 : bF.needsLoading = true) (hF2 : strTruthy bF.uri = false)
    (hF3 : bF.file = some f) (hF4 : bF.startedBinding = false)
    (hT1 : bT.needsLoading = true) (hT2 : bT.request = some req)
    (hT3 : bT.startedBinding = false)
    (hP1 : bP.needsLoading = true) (hP2 : strTruthy bP.uri = false)
    (hP3 : bP.startedBinding = false) :
    (loadFromArrayBuffer bD oneShot bn).trace =
      [TraceAct.setNeedsLoadingFalse, TraceAct.dispatchLoadingStarted,
       TraceAct.setStartedBinding, TraceAct.bufferWrite,
       TraceAct.setFinishedLoading, TraceAct.dispatchLoadingComplete,
       TraceAct.setBookMetadata, TraceAct.setBookBinder] ∧
    (loadFromXhr bX resp bn).trace =
      [TraceAct.setNeedsLoadingFalse, TraceAct.dispatchLoadingStarted,
       TraceAct.setStartedBinding, TraceAct.bufferWrite,
       TraceAct.setFinishedLoading, TraceAct.dispatchLoadingComplete,
       TraceAct.setBookMetadata, TraceAct.setBookBinder] ∧
    (loadFromFile bF fileAb bn).trace =
      [TraceAct.setNeedsLoadingFalse, TraceAct.dispatchLoadingStarted,
       TraceAct.setStartedBinding, TraceAct.bufferWrite,
       TraceAct.setFinishedLoading, TraceAct.dispatchLoadingComplete,
       TraceAct.setBookMetadata, TraceAct.setBookBinder] ∧
    (loadFromFetch bT (c0 :: cs) bn).trace =
      [TraceAct.setNeedsLoadingFalse, TraceAct.dispatchLoadingStarted,
       TraceAct.setStartedBinding, TraceAct.bufferWrite,
       TraceAct.setBookMetadata, TraceAct.setBookBinder]
      ++ fetchChunkTrace cs
      ++ [TraceAct.setFinishedLoading, TraceAct.dispatchLoadingComplete] ∧
    TraceAct.dispatchLoadingStarted ∉ fetchChunkTrace cs ∧
    TraceAct.dispatchLoadingComplete ∉ fetchChunkTrace cs ∧
    (loadFromBookPump bP a0 (pumpEvsOf ds) bn).trace =
      TraceAct.setNeedsLoadingFalse ::
        ([TraceAct.setStartedBinding, TraceAct.bufferWrite,
          TraceAct.setBookMetadata, TraceAct.setBookBinder]
         ++ pumpTrace (pumpEvsOf ds)) ∧
    TraceAct.dispatchLoadingStarted ∉ (loadFromBookPump bP a0 (pumpEvsOf ds) bn).trace ∧
    TraceAct.dispatchLoadingComplete ∈ (loadFromBookPump bP a0 (pumpEvsOf ds) bn).trace ∧
    (applyOp b2 op2).finishedBinding = b2.finishedBinding ∧
    (applyOp b2 BookOp.opBindingComplete).finishedBinding = true ∧
    (loadFromArrayBuffer bD oneShot bn).book.finishedBinding = false ∧
    TraceAct.dispatchLoadingComplete ∈ (loadFromArrayBuffer bD oneShot bn).trace ∧
    (handleBindingComplete (loadFromArrayBuffer bD oneShot bn).book).1.finishedBinding
      = true := by
  have hDs := loadFromArrayBuffer_success bD oneShot bn hD1 hD2 hD3
  have hPs := loadFromBookPump_success bP a0 (pumpEvsOf ds) bn hP1 hP2 hP3
  refine ⟨hDs.2.2.2.2.2.2,
    (loadFromXhr_success bX resp bn hX1 hX2 hX3).2.2.2.2.2.2,
    (loadFromFile_success bF fileAb bn f hF1 hF2 hF3 hF4).2.2.2.2.2.2,
    (loadFromFetch_success bT c0 cs bn req hT1 hT2 hT3).2.2.2.2.2.2,
    fetchChunkTrace_no_started cs, fetchChunkTrace_no_complete cs,
    hPs.2.2.2.2.2, ?_, ?_, applyOp_finishedBinding_eq b2 op2 hop, ?_, ?_, ?_, ?_⟩
  · rw [hPs.2.2.2.2.2]
    simp [pumpTrace_no_started (pumpEvsOf ds)]
  · rw [hPs.2.2.2.2.2]
    simp [pumpTrace_complete_of_stop ds]
  · unfold applyOp handleBindingComplete
    rfl
  · rw [hDs.2.2.2.2.2.1, hD4]
  · rw [hDs.2.2.2.2.2.2]
    decide
  · unfold handleBindingComplete
    rfl

/-- Witness for C6 at concrete fresh Books and a concrete pump delivery. -/
theorem claimC6_loading_milestones_witness :
    TraceAct.dispatchLoadingStarted ∉
      (loadFromBookPump freshABBook [9] (pumpEvsOf [[10]]) binder0).trace :=
  (claimC6_loading_milestones freshABBook (BookOp.opProgress 2) freshABBook
    freshXhrBook freshFileBook freshFetchBook freshABBook [5] [6] [7] [4] [9]
    [[10]] [[10]] binder0 3 5 (by decide) (by decide) (by decide) (by decide)
    (by decide) (by decide) (by decide) (by decide) (by decide) (by decide)
    (by decide) (by decide) (by decide) (by decide) (by decide) (by decide)
    (by decide) (by decide)).2.2.2.2.2.2.2.1

/-- C7: setMetadata stores an independent deep copy of the caller record:
the stored reference is a fresh cell distinct from the caller reference,
holding the record value at call time; mutating the caller record
afterwards does not change the record getMetadata refers to; this is
generic in the heap, so it holds for every sequence of setMetadata calls
with distinct (and even with repeated) caller records. The clone
operation is modelled from the spec because metadata/book-metadata.js is
not part of the sources (see MetaHeap.clone). -/
theorem claimC7_metadata_deep_copy (h : MetaHeap) (b : Book) (r : Nat)
    (v : MetaVal) (hr : r < h.cells.length) :
    (setMetadata h b r).2.getMetadata = some h.cells.length ∧
    h.cells.length ≠ r ∧
    (setMetadata h b r).1.read h.cells.length = h.read r ∧
    ((setMetadata h b r).1.write r v).read h.cells.length = h.read r ∧
    ((setMetadata h b r).1.write r v).read r = v := by
  have hne : h.cells.length ≠ r := by omega
  refine ⟨rfl, hne, ?_, ?_, ?_⟩
  · unfold setMetadata MetaHeap.clone MetaHeap.read
    simp [list_get_concat_len]
  · unfold setMetadata MetaHeap.clone MetaHeap.read MetaHeap.write
    simp only
    rw [list_get_set_ne _ r h.cells.length v (by omega), list_get_concat_len]
    rfl
  · unfold setMetadata MetaHeap.clone MetaHeap.read MetaHeap.write
    simp only
    have hlt : r < (h.cells ++ [(h.cells.get? r).getD []]).length := by
      simp
      omega
    rw [list_get_set_self _ r v hlt]
    rfl

/-- Witness for C7 on a one-cell heap. -/
theorem claimC7_metadata_deep_copy_witness :
    (setMetadata ⟨[[("series", "X")]]⟩ freshABBook 0).2.getMetadata = some 1 :=
  (claimC7_metadata_deep_copy ⟨[[("series", "X")]]⟩ freshABBook 0 []
    (by decide)).1

/-- C8: before the BookBinder exists getMIMEType fails with NotBoundError
while the three percentage getters return 0; once it exists all four
delegate to the corresponding binder query. -/
theorem claimC8_binder_delegation (b : Book) (bn : BookBinder) :
    (b.bookBinder = none →
      b.getMIMEType = Except.error BookError.notBound ∧
      b.getLoadingPercentage = 0 ∧
      b.getUnarchivingPercentage = 0 ∧
      b.getLayoutPercentage = 0) ∧
    (b.bookBinder = some bn →
      b.getMIMEType = Except.ok bn.mimeType ∧
      b.getLoadingPercentage = bn.loadingPct ∧
      b.getUnarchivingPercentage = bn.unarchivingPct ∧
      b.getLayoutPercentage = bn.layoutPct) := by
  constructor
  · intro hnone
    unfold Book.getMIMEType Book.getLoadingPercentage Book.getUnarchivingPercentage
      Book.getLayoutPercentage
    rw [hnone]
    exact ⟨rfl, rfl, rfl, rfl⟩
  · intro hsome
    unfold Book.getMIMEType Book.getLoadingPercentage Book.getUnarchivingPercentage
      Book.getLayoutPercentage
    rw [hsome]
    exact ⟨rfl, rfl, rfl, rfl⟩

/-- Witness for C8 on an unbound and a bound Book. -/
theorem claimC8_binder_delegation_witness :
    freshABBook.getMIMEType = Except.error BookError.notBound ∧
    ({ freshABBook with bookBinder := some binder0 } : Book).getMIMEType =
      Except.ok binder0.mimeType :=
  ⟨((claimC8_binder_delegation freshABBook binder0).1 (by decide)).1,
   ((claimC8_binder_delegation { freshABBook with bookBinder := some binder0 }
      binder0).2 (by decide)).1⟩

/-- C9 counterexample: constructing a Book with a valid name and the
source argument left undefined succeeds (the constructor only carries a
comment asking whether it should throw) and populates zero source kinds,
refuting that exactly one source kind is populated for every constructed
Book; load() on that Book then fails with the source-mismatch error. -/
theorem claimC9_counterexample :
    mkBook "book" CtorArg.undef (-1) = Except.ok noSourceBook ∧
    sourceKindCount noSourceBook = 0 ∧
    sourceKindCount noSourceBook ≠ 1 ∧
    (noSourceBook.load [] binder0).err = some BookError.sourceMismatch ∧
    (noSourceBook.load [] binder0).book = noSourceBook :=
  ⟨rfl, by decide, by decide, by decide, by decide⟩

/-- C9 amended: at most one source kind is populated at construction; when
the constructor argument is truthy (a nonempty string, a Request, a File,
or a handle object) exactly one source kind is populated, and when it is
falsy (absent, or the empty string) none is; the four source fields are
never changed by any later operation; and load() on a Book with no
resolvable source kind fails with SourceMismatchError, leaving the Book
unchanged. -/
theorem claimC9_source_kinds (name : String) (arg : CtorArg) (b bAny : Book)
    (op : BookOp) (chunks : List Buf) (bn : BookBinder)
    (hok : mkBook name arg (-1) = Except.ok b) :
    sourceKindCount b ≤ 1 ∧
    (arg.truthy = true → sourceKindCount b = 1) ∧
    (arg.truthy = false → sourceKindCount b = 0) ∧
    (applyOp bAny op).uri = bAny.uri ∧
    (applyOp bAny op).request = bAny.request ∧
    (applyOp bAny op).file = bAny.file ∧
    (applyOp bAny op).fileHandle = bAny.fileHandle ∧
    (sourceKindCount bAny = 0 →
      bAny.load chunks bn =
        { book := bAny, err := some BookError.sourceMismatch, trace := [] }) := by
  obtain ⟨hsu, hsr, hsf, hsh⟩ := applyOp_sources_eq bAny op
  have hload : sourceKindCount bAny = 0 →
      bAny.load chunks bn =
        { book := bAny, err := some BookError.sourceMismatch, trace := [] } :=
    fun h0 => load_noSource bAny chunks bn h0
  refine ⟨?_, ?_, ?_, hsu, hsr, hsf, hsh, hload⟩ <;>
  · by_cases hn : name = ""
    · rw [mkBook, if_pos hn] at hok
      exact absurd hok (by simp)
    · rw [mkBook, if_neg hn] at hok
      simp only [Except.ok.injEq] at hok
      subst hok
      cases arg with
      | str s =>
        by_cases hs : s = "" <;>
          simp [sourceKindCount, strTruthy, CtorArg.truthy, hs, argUri,
            argRequest, argFile, argHandle]
      | request id =>
        simp [sourceKindCount, strTruthy, CtorArg.truthy, argUri, argRequest,
          argFile, argHandle]
      | file id =>
        simp [sourceKindCount, strTruthy, CtorArg.truthy, argUri, argRequest,
          argFile, argHandle]
      | fileHandle id =>
        simp [sourceKindCount, strTruthy, CtorArg.truthy, argUri, argRequest,
          argFile, argHandle]
      | undef =>
        simp [sourceKindCount, strTruthy, CtorArg.truthy, argUri, argRequest,
          argFile, argHandle]

/-- Witness for C9 on a Book constructed from a nonempty URI string. -/
theorem claimC9_source_kinds_witness :
    sourceKindCount
      { name := "book", uri := some "u", request := none, file := none,
        fileHandle := CtorArg.undef, arrayBuffer := none, bookBinder := none,
        bookMetadata := none, expectedSize := -1, finishedBinding := false,
        finishedLoading := false, needsLoading := true, pages := [],
        startedBinding := false, totalPages := 0 } = 1 :=
  (claimC9_source_kinds "book" (CtorArg.str "u")
    { name := "book", uri := some "u", request := none, file := none,
      fileHandle := CtorArg.undef, arrayBuffer := none, bookBinder := none,
      bookMetadata := none, expectedSize := -1, finishedBinding := false,
      finishedLoading := false, needsLoading := true, pages := [],
      startedBinding := false, totalPages := 0 }
    freshABBook BookOp.opBindingComplete [] binder0 rfl).2.1 (by decide)

/-- C10: when the reported total page count exceeds the number of
extracted pages, getPage at an index between pages.length and the total
returns the absent undefined value, which is distinct from the null
not-found result returned for indices outside the interval from 0 to the
total; and when the total page count is still 0, the bound used by
getPage falls back to pages.length. -/
theorem claimC10_absent_vs_null (b : Book) (i : Int) :
    ((b.pages.length : Int) ≤ i → i < (b.totalPages : Int) →
      b.getPage i = PageResult.absent) ∧
    ((i < 0 ∨ (b.totalPages : Int) ≤ i) → b.totalPages ≠ 0 →
      b.getPage i = PageResult.notFound) ∧
    PageResult.absent ≠ PageResult.notFound ∧
    (b.totalPages = 0 → b.numPages = b.pages.length) := by
  refine ⟨?_, ?_, by decide, ?_⟩
  · intro hlen hlt
    have h0 : (0 : Int) ≤ i := le_trans (by positivity) hlen
    have htp : b.totalPages ≠ 0 := by omega
    have hnp : b.numPages = b.totalPages := by
      unfold Book.numPages
      rw [if_pos htp]
    unfold Book.getPage
    rw [if_neg (by rw [hnp]; omega)]
    have hget : b.pages.get? i.toNat = none := by
      rw [List.get?_eq_none]
      omega
    rw [hget]
  · intro hout htp
    have hnp : b.numPages = b.totalPages := by
      unfold Book.numPages
      rw [if_pos htp]
    unfold Book.getPage
    rw [if_pos (by rw [hnp]; omega)]
  · intro h0
    unfold Book.numPages
    rw [if_neg (by omega)]

/-- Witness for C10 on a Book with one extracted page and a reported total
of three. -/
theorem claimC10_absent_vs_null_witness :
    ({ freshABBook with pages := [10], totalPages := 3 } : Book).getPage 1 =
      PageResult.absent ∧
    ({ freshABBook with pages := [10], totalPages := 3 } : Book).getPage 5 =
      PageResult.notFound :=
  ⟨(claimC10_absent_vs_null { freshABBook with pages := [10], totalPages := 3 }
      1).1 (by decide) (by decide),
   (claimC10_absent_vs_null { freshABBook with pages := [10], totalPages := 3 }
      5).2.1 (Or.inr (by decide)) (by decide)⟩
